import Mathlib

/-!
Verification of the CryptoMamba windowing, labeling and normalization
pipeline.  The definitions below are shallow embeddings of the Python
functions in src/data_utils/dataset.py, src/data_utils/data_transforms.py
and src/pl_modules/base_module.py.  Prices, returns and thresholds are
modelled as rationals; pandas DataFrames become lists of rows; torch
tensors become lists; Python's None/exceptions become Option.
-/

namespace CryptoMamba

/-- One OHLCV row of the raw table (columns Timestamp, High, Low, Open,
Close, Volume), as read by DataConverter.get_row_values. -/
structure PriceRow where
  timestamp : Int
  high : ℚ
  low : ℚ
  «open» : ℚ
  close : ℚ
  volume : ℚ
  deriving DecidableEq, Repr

namespace DataTransform

/-- Scalar path of DataTransform.create_class_labels
(data_transforms.py): if returns < -threshold then 0, elif
returns <= threshold then 1, else 2. -/
def create_class_labels (threshold returns : ℚ) : Nat :=
  if returns < -threshold then 0
  else if returns ≤ threshold then 1
  else 2

/-- Elementwise semantics of the tensor path of
DataTransform.create_class_labels: labels start at 0
(torch.zeros_like) and the three masked assignments are applied in
program order, a later assignment overwriting an earlier one. -/
def tensor_label (threshold r : ℚ) : Nat :=
  let l0 : Nat := 0
  let l1 : Nat := if r < -threshold then 0 else l0
  let l2 : Nat := if -threshold ≤ r ∧ r ≤ threshold then 1 else l1
  if threshold < r then 2 else l2

/-- Tensor path of DataTransform.create_class_labels applied to a
whole tensor of returns. -/
def create_class_labels_tensor (threshold : ℚ) (rs : List ℚ) : List Nat :=
  rs.map (tensor_label threshold)

/-- Return computation in DataTransform.__call__ (classification
branch): (current - previous) / previous when previous != 0, else 0. -/
def call_returns (current_price previous_price : ℚ) : ℚ :=
  if previous_price ≠ 0 then (current_price - previous_price) / previous_price else 0

end DataTransform

namespace CMambaDataset

/-- CMambaDataset.__len__: max(0, len(self.data) - self.window_size - 1). -/
def len (n window_size : Nat) : Nat :=
  (max 0 ((n : Int) - window_size - 1)).toNat

/-- The row slice data.iloc[i : i + window_size + 1] taken by
CMambaDataset.__getitem__. -/
def iloc_window (data : List α) (window_size i : Nat) : List α :=
  (data.drop i).take (window_size + 1)

/-- Scalar path of CMambaDataset.create_class_labels (dataset.py). -/
def create_class_labels (threshold returns : ℚ) : Nat :=
  if returns < -threshold then 0
  else if returns ≤ threshold then 1
  else 2

/-- Elementwise semantics of the tensor path of
CMambaDataset.create_class_labels (same masked-assignment sequence as
the transform's tensor path). -/
def tensor_label (threshold r : ℚ) : Nat :=
  let l0 : Nat := 0
  let l1 : Nat := if r < -threshold then 0 else l0
  let l2 : Nat := if -threshold ≤ r ∧ r ≤ threshold then 1 else l1
  if threshold < r then 2 else l2

/-- Tensor path of CMambaDataset.create_class_labels on a whole tensor. -/
def create_class_labels_tensor (threshold : ℚ) (rs : List ℚ) : List Nat :=
  rs.map (tensor_label threshold)

/-- The per-window return in CMambaDataset._compute_returns:
(current_price - previous_price) / previous_price when
previous_price != 0, else 0.0. -/
def loop_return (current_price previous_price : ℚ) : ℚ :=
  if previous_price ≠ 0 then (current_price - previous_price) / previous_price else 0

/-- CMambaDataset._compute_returns: for each i in range(len(self)),
current = prices[i + window_size], previous = prices[i + window_size - 1],
returns[i] as in loop_return.  (Indices stay in bounds for
window_size >= 1 and i < len, so list getD with default 0 is faithful.) -/
def compute_returns (prices : List ℚ) (window_size : Nat) : List ℚ :=
  (List.range (len prices.length window_size)).map fun i =>
    loop_return (prices.getD (i + window_size) 0) (prices.getD (i + window_size - 1) 0)

end CMambaDataset

namespace ClassificationTransform

/-- Min-max scaling in ClassificationTransform.__call__: values are
rescaled only under the guard max_val > min_val, otherwise passed
through unchanged. -/
def normalize (v min_val max_val : ℚ) : ℚ :=
  if max_val > min_val then (v - min_val) / (max_val - min_val) else v

/-- Return computation in ClassificationTransform.__call__:
(y - y_old) / y_old if y_old != 0 else 0.0. -/
def call_returns (y y_old : ℚ) : ℚ :=
  if y_old ≠ 0 then (y - y_old) / y_old else 0

end ClassificationTransform

namespace BaseModule

/-- Elementwise semantics of BaseModule.create_class_labels
(base_module.py), which only has the tensor path: zeros then three
masked assignments in program order. -/
def tensor_label (threshold r : ℚ) : Nat :=
  let l0 : Nat := 0
  let l1 : Nat := if r < -threshold then 0 else l0
  let l2 : Nat := if -threshold ≤ r ∧ r ≤ threshold then 1 else l1
  if threshold < r then 2 else l2

/-- BaseModule.create_class_labels applied to a whole tensor of returns. -/
def create_class_labels (threshold : ℚ) (rs : List ℚ) : List Nat :=
  rs.map (tensor_label threshold)

/-- BaseModule.set_normalization_coeffs: scale = factors[y_key].max -
factors[y_key].min, shift = factors[y_key].min. -/
def normalization_coeffs (min_val max_val : ℚ) : ℚ × ℚ :=
  (max_val - min_val, min_val)

/-- BaseModule.denormalize: y * scale + shift. -/
def denormalize (y scale shift : ℚ) : ℚ :=
  y * scale + shift

end BaseModule

namespace DataConverter

/-- One aggregated bar appended by DataConverter.process_data, with its
bucket-start Timestamp and the merged OHLCV values. -/
structure OutBar where
  timestamp : Int
  high : ℚ
  low : ℚ
  «open» : ℚ
  close : ℚ
  volume : ℚ
  deriving DecidableEq, Repr

/-- Python range(start, stop, step) over integers, for a positive step
(the only case the code uses); empty otherwise. -/
def pyRange (start stop step : Int) : List Int :=
  if 0 < step then
    (List.range ((stop - start + step - 1).toNat / step.toNat)).map fun k => start + k * step
  else []

/-- The two timestamp filters at the top of DataConverter.merge_data:
rows with start <= Timestamp < start + jump. -/
def bucketFilter (data : List PriceRow) (start jump : Int) : List PriceRow :=
  data.filter fun r => decide (start ≤ r.timestamp) && decide (r.timestamp < start + jump)

/-- One iteration of the row loop in DataConverter.merge_data, acting on
the accumulator (high, low, open, close, vol):
high = max(high, h); low = min(low, l); close = row close; vol += v. -/
def merge_step (acc : ℚ × ℚ × ℚ × ℚ × ℚ) (r : PriceRow) : ℚ × ℚ × ℚ × ℚ × ℚ :=
  (max acc.1 r.high, min acc.2.1 r.low, acc.2.2.1, r.close, acc.2.2.2.2 + r.volume)

/-- DataConverter.merge_data: filter the bucket; None when it is empty;
otherwise seed (high, low, open, close) from the first row and vol = 0,
then run the row loop over every row of the bucket (the first row
included, as in the source). -/
def merge_data (data : List PriceRow) (start jump : Int) : Option (ℚ × ℚ × ℚ × ℚ × ℚ) :=
  match bucketFilter data start jump with
  | [] => none
  | r0 :: rest =>
      some ((r0 :: rest).foldl merge_step (r0.high, r0.low, r0.«open», r0.close, 0))

/-- DataConverter.process_data: iterate bucket starts over
range(start, stop - 3600, jumps), skip buckets where merge_data
returned None, and append one bar per remaining bucket. -/
def process_data (data : List PriceRow) (start stop jump : Int) : List OutBar :=
  (pyRange start (stop - 3600) jump).filterMap fun i =>
    match merge_data data i jump with
    | none => none
    | some (h, l, o, c, v) => some ⟨i, h, l, o, c, v⟩

/-- Python int() applied to a rational: truncation toward zero. -/
def pyInt (q : ℚ) : Int :=
  if 0 ≤ q then ⌊q⌋ else -⌊-q⌋

/-- The subset sizes in DataConverter.split:
n_train = int(train_ratio * total), n_test = int(test_ratio * total). -/
def fraction_count (frac : ℚ) (total : Nat) : Nat :=
  (pyInt (frac * total)).toNat

/-- Python slice xs[a : -b] on a list (b counted from the end); for
b = 0 this is xs[a : 0], the empty list. -/
def slice_to_neg (xs : List Nat) (a b : Nat) : List Nat :=
  if b = 0 then [] else (xs.take (xs.length - b)).drop a

/-- Python slice xs[-b :] on a list; for b = 0 this is xs[0 :], the
whole list. -/
def slice_from_neg (xs : List Nat) (b : Nat) : List Nat :=
  if b = 0 then xs else xs.drop (xs.length - b)

/-- Python sorted() on a list of indices, ascending. -/
def py_sorted (l : List Nat) : List Nat :=
  List.insertionSort (· ≤ ·) l

/-- The ratio branch of DataConverter.split, acting on the shuffled
index list: train = sorted(total[. n_train]), val =
sorted(total[n_train . -n_test]), test = sorted(total[-n_test .]).
The caller then materializes each subset with data.iloc. -/
def split_indices (perm : List Nat) (n_train n_test : Nat) :
    List Nat × List Nat × List Nat :=
  (py_sorted (perm.take n_train),
   py_sorted (slice_to_neg perm n_train n_test),
   py_sorted (slice_from_neg perm n_test))

end DataConverter

namespace DataTransform

/-- The key string appended inside DataTransform.__call__. -/
def tsOrig : String := "Timestamp_orig"

/-- self.keys as set in DataTransform.__init__ (without volume). -/
def init_keys : List String := ["Timestamp", "Open", "High", "Low", "Close"]

/-- State effect and column fetch of DataTransform.__call__: when the
window has a Timestamp_orig column, 'Timestamp_orig' is appended to the
shared self.keys list; then window.get(key).tolist() is read for every
key of the updated list, which is None (a crash on .tolist()) when a
key is missing.  Returns the updated self.keys together with the
fetched columns, None if any fetch failed. -/
def call_fetch (keys : List String) (window : List (String × List ℚ)) :
    List String × Option (List (List ℚ)) :=
  let keys1 := if (window.lookup tsOrig).isSome then keys ++ [tsOrig] else keys
  (keys1, keys1.mapM fun k => window.lookup k)

/-- A window that carries a Timestamp_orig column. -/
def window_with_orig : List (String × List ℚ) :=
  [("Timestamp", [0, 1]), ("Open", [1, 2]), ("High", [3, 4]),
   ("Low", [1, 1]), ("Close", [2, 3]), ("Timestamp_orig", [0, 1])]

/-- The same window without the Timestamp_orig column. -/
def window_no_orig : List (String × List ℚ) :=
  [("Timestamp", [0, 1]), ("Open", [1, 2]), ("High", [3, 4]),
   ("Low", [1, 1]), ("Close", [2, 3])]

end DataTransform

namespace CMambaDataset

/-- The fields of the transformed sample that the classification branch
of CMambaDataset.__getitem__ reads and writes. -/
structure TransSample where
  returns : Option ℚ
  target_class : Option Nat
  deriving DecidableEq, Repr

/-- Classification branch of CMambaDataset.__getitem__: if 'returns'
is not in the transformed sample, insert the precomputed
self.returns[i]; then unconditionally set target_class =
self.create_class_labels(transformed_sample['returns']) with the
dataset's own threshold. -/
def getitem_classify (threshold precomputed : ℚ) (s : TransSample) : TransSample :=
  let r := match s.returns with
    | some r => r
    | none => precomputed
  { s with returns := some r, target_class := some (create_class_labels threshold r) }

end CMambaDataset

/-! ## Theorems -/

/-- Helper: under a nonnegative threshold, the masked-assignment tensor
semantics coincides with the scalar if/elif/else classifier. -/
theorem tensor_label_eq_scalar (t r : ℚ) (ht : 0 ≤ t) :
    DataTransform.tensor_label t r = DataTransform.create_class_labels t r := by
  unfold DataTransform.tensor_label DataTransform.create_class_labels
  rcases lt_or_ge r (-t) with h1 | h1
  · have hb : ¬(-t ≤ r ∧ r ≤ t) := fun hc => absurd hc.1 (not_le.mpr h1)
    have hc : ¬(t < r) := not_lt.mpr (le_of_lt (lt_of_lt_of_le h1 (neg_le_self ht)))
    simp [h1, hb, hc]
  · rcases le_or_lt r t with h2 | h2
    · have ha : ¬(r < -t) := not_lt.mpr h1
      have hc : ¬(t < r) := not_lt.mpr h2
      simp [ha, hc, h1, h2]
    · have ha : ¬(r < -t) := not_lt.mpr h1
      have hb : ¬(-t ≤ r ∧ r ≤ t) := fun hc => absurd hc.2 (not_le.mpr h2)
      have hc : ¬(r ≤ t) := not_le.mpr h2
      simp [ha, hb, hc, h2]

/-- Claim C2: for a threshold >= 0, the discretization assigns class 0
exactly when returns < -threshold, class 1 exactly when -threshold <=
returns <= threshold, class 2 exactly when returns > threshold; the
boundary values land in class 1, and for threshold = 0 class 1 is
exactly the point returns = 0. -/
theorem C2_return_discretization (threshold returns : ℚ) (ht : 0 ≤ threshold) :
    (DataTransform.create_class_labels threshold returns = 0 ↔ returns < -threshold) ∧
    (DataTransform.create_class_labels threshold returns = 1 ↔
      -threshold ≤ returns ∧ returns ≤ threshold) ∧
    (DataTransform.create_class_labels threshold returns = 2 ↔ threshold < returns) ∧
    (threshold = 0 → (DataTransform.create_class_labels threshold returns = 1 ↔ returns = 0)) := by
  unfold DataTransform.create_class_labels
  refine ⟨?_, ?_, ?_, ?_⟩
  · split_ifs with h1 h2 <;> simp_all
  · split_ifs with h1 h2 <;> simp_all
  · split_ifs with h1 h2 <;> simp_all
    linarith
  · intro h0
    subst h0
    split_ifs with h1 h2 <;> simp_all <;> try linarith

/-- Witness for C2 at threshold 0 and returns 0. -/
theorem C2_return_discretization_witness :
    (0 : ℚ) ≤ 0 ∧
    ((DataTransform.create_class_labels 0 0 = 0 ↔ (0 : ℚ) < -0) ∧
     (DataTransform.create_class_labels 0 0 = 1 ↔ (-0 : ℚ) ≤ 0 ∧ (0 : ℚ) ≤ 0) ∧
     (DataTransform.create_class_labels 0 0 = 2 ↔ (0 : ℚ) < 0) ∧
     ((0 : ℚ) = 0 → (DataTransform.create_class_labels 0 0 = 1 ↔ (0 : ℚ) = 0))) :=
  ⟨le_refl 0, C2_return_discretization 0 0 (le_refl 0)⟩

/-- Claim C3: under a shared threshold >= 0, the scalar and tensor
labeling paths agree, and the three implementations (transform,
dataset, training module) agree on every input, scalar or batched. -/
theorem C3_labeling_paths_agree (threshold r : ℚ) (rs : List ℚ) (ht : 0 ≤ threshold) :
    DataTransform.tensor_label threshold r = DataTransform.create_class_labels threshold r ∧
    CMambaDataset.create_class_labels threshold r =
      DataTransform.create_class_labels threshold r ∧
    CMambaDataset.tensor_label threshold r = DataTransform.create_class_labels threshold r ∧
    BaseModule.tensor_label threshold r = DataTransform.create_class_labels threshold r ∧
    DataTransform.create_class_labels_tensor threshold rs =
      rs.map (DataTransform.create_class_labels threshold) ∧
    CMambaDataset.create_class_labels_tensor threshold rs =
      rs.map (DataTransform.create_class_labels threshold) ∧
    BaseModule.create_class_labels threshold rs =
      rs.map (DataTransform.create_class_labels threshold) := by
  have hf : ∀ x : ℚ, DataTransform.tensor_label threshold x =
      DataTransform.create_class_labels threshold x :=
    fun x => tensor_label_eq_scalar threshold x ht
  refine ⟨hf r, rfl, hf r, hf r, ?_, ?_, ?_⟩ <;>
    simp only [DataTransform.create_class_labels_tensor,
      CMambaDataset.create_class_labels_tensor, BaseModule.create_class_labels] <;>
    exact List.map_congr_left fun x _ => hf x

/-- Witness for C3 at threshold 1/1000 with a small batch. -/
theorem C3_labeling_paths_agree_witness :
    (0 : ℚ) ≤ 1 / 1000 ∧
    DataTransform.tensor_label (1 / 1000) (1 / 1000) =
      DataTransform.create_class_labels (1 / 1000) (1 / 1000) ∧
    CMambaDataset.create_class_labels (1 / 1000) (1 / 1000) =
      DataTransform.create_class_labels (1 / 1000) (1 / 1000) ∧
    CMambaDataset.tensor_label (1 / 1000) (1 / 1000) =
      DataTransform.create_class_labels (1 / 1000) (1 / 1000) ∧
    BaseModule.tensor_label (1 / 1000) (1 / 1000) =
      DataTransform.create_class_labels (1 / 1000) (1 / 1000) ∧
    DataTransform.create_class_labels_tensor (1 / 1000) [-1, 0, 1] =
      ([-1, 0, 1] : List ℚ).map (DataTransform.create_class_labels (1 / 1000)) ∧
    CMambaDataset.create_class_labels_tensor (1 / 1000) [-1, 0, 1] =
      ([-1, 0, 1] : List ℚ).map (DataTransform.create_class_labels (1 / 1000)) ∧
    BaseModule.create_class_labels (1 / 1000) [-1, 0, 1] =
      ([-1, 0, 1] : List ℚ).map (DataTransform.create_class_labels (1 / 1000)) :=
  ⟨by norm_num, C3_labeling_paths_agree (1 / 1000) (1 / 1000) [-1, 0, 1] (by norm_num)⟩

/-- Claim C7: when max > min, normalizing then denormalizing with the
same factors is the identity; when max = min the normalization step is
a pass-through. -/
theorem C7_normalization_roundtrip (v min_val max_val : ℚ) :
    (min_val < max_val →
      BaseModule.denormalize (ClassificationTransform.normalize v min_val max_val)
        (BaseModule.normalization_coeffs min_val max_val).1
        (BaseModule.normalization_coeffs min_val max_val).2 = v) ∧
    (max_val = min_val → ClassificationTransform.normalize v min_val max_val = v) := by
  constructor
  · intro h
    have hne : max_val - min_val ≠ 0 := sub_ne_zero.mpr (ne_of_gt h)
    simp only [ClassificationTransform.normalize, BaseModule.normalization_coeffs,
      BaseModule.denormalize, gt_iff_lt, if_pos h]
    field_simp
  · intro h
    simp [ClassificationTransform.normalize, h]

/-- Witness for C7: round trip at v = 5 with factors (1, 3), and
pass-through at equal factors (2, 2). -/
theorem C7_normalization_roundtrip_witness :
    ((1 : ℚ) < 3 ∧
      BaseModule.denormalize (ClassificationTransform.normalize 5 1 3)
        (BaseModule.normalization_coeffs 1 3).1
        (BaseModule.normalization_coeffs 1 3).2 = 5) ∧
    ((2 : ℚ) = 2 ∧ ClassificationTransform.normalize 7 2 2 = 7) :=
  ⟨⟨by norm_num, (C7_normalization_roundtrip 5 1 3).1 (by norm_num)⟩,
   ⟨rfl, (C7_normalization_roundtrip 7 2 2).2 rfl⟩⟩

/-- Claim C8: every return-computation site yields exactly 0 when the
previous target value is 0 and (current - previous)/previous
otherwise; the whole-series precomputation agrees elementwise with the
per-window formula. -/
theorem C8_return_zero_denominator (c p : ℚ) (prices : List ℚ) (w i : Nat) :
    (p = 0 → DataTransform.call_returns c p = 0 ∧
      ClassificationTransform.call_returns c p = 0 ∧
      CMambaDataset.loop_return c p = 0) ∧
    (p ≠ 0 → DataTransform.call_returns c p = (c - p) / p ∧
      ClassificationTransform.call_returns c p = (c - p) / p ∧
      CMambaDataset.loop_return c p = (c - p) / p) ∧
    (i < CMambaDataset.len prices.length w →
      (CMambaDataset.compute_returns prices w).getD i 0 =
        CMambaDataset.loop_return (prices.getD (i + w) 0) (prices.getD (i + w - 1) 0)) := by
  refine ⟨?_, ?_, ?_⟩
  · intro h
    simp [DataTransform.call_returns, ClassificationTransform.call_returns,
      CMambaDataset.loop_return, h]
  · intro h
    simp [DataTransform.call_returns, ClassificationTransform.call_returns,
      CMambaDataset.loop_return, h]
  · intro hi
    simp only [CMambaDataset.compute_returns, List.getD_eq_getElem?_getD,
      List.getElem?_map, List.getElem?_range, hi, Option.map_some]
    rfl

/-- Witness for C8 at previous = 0, previous = 2, and one series element. -/
theorem C8_return_zero_denominator_witness :
    ((3 : ℚ) = 0 → DataTransform.call_returns 0 3 = 0 ∧
      ClassificationTransform.call_returns 0 3 = 0 ∧ CMambaDataset.loop_return 0 3 = 0) ∧
    (DataTransform.call_returns 3 0 = 0 ∧
      ClassificationTransform.call_returns 3 0 = 0 ∧
      CMambaDataset.loop_return 3 0 = 0) ∧
    (DataTransform.call_returns 3 2 = (3 - 2) / 2 ∧
      ClassificationTransform.call_returns 3 2 = (3 - 2) / 2 ∧
      CMambaDataset.loop_return 3 2 = (3 - 2) / 2) ∧
    (CMambaDataset.compute_returns [1, 2, 4] 1).getD 0 0 =
      CMambaDataset.loop_return (([1, 2, 4] : List ℚ).getD 1 0)
        (([1, 2, 4] : List ℚ).getD 0 0) :=
  ⟨fun h => absurd h (by norm_num),
   (C8_return_zero_denominator 3 0 [] 0 0).1 rfl,
   (C8_return_zero_denominator 3 2 [] 0 0).2.1 (by norm_num),
   (C8_return_zero_denominator 3 2 [1, 2, 4] 1 0).2.2 (by decide)⟩

/-- Claim C9 (refuting evaluation): DataTransform.__call__ is not
side-effect-free.  Transforming a window that carries a Timestamp_orig
column appends that key to the shared self.keys list, and a later call
on a window without the column then fails to fetch the now-expected
column, whereas a fresh transform on the same window succeeds. -/
theorem C9_transform_mutates_state :
    (DataTransform.call_fetch DataTransform.init_keys DataTransform.window_with_orig).1 ≠
      DataTransform.init_keys ∧
    ((DataTransform.call_fetch DataTransform.init_keys
        DataTransform.window_no_orig).2).isSome = true ∧
    (DataTransform.call_fetch
        (DataTransform.call_fetch DataTransform.init_keys DataTransform.window_with_orig).1
        DataTransform.window_no_orig).2 = none := by
  decide

/-- Claim C1: the window sampler's size is max(0, length - window_size
- 1); each index i in range yields exactly the window_size + 1
consecutive bars at offsets i through i + window_size; for a 6-bar
series and window_size 3 the size is 2, index 0 spans bars 0..3 and
index 1 spans bars 1..4. -/
theorem C1_window_sampler :
    (∀ (α : Type) (d : α) (data : List α) (w i j : Nat),
      i < CMambaDataset.len data.length w → j < w + 1 →
      (CMambaDataset.iloc_window data w i).length = w + 1 ∧
      (CMambaDataset.iloc_window data w i).getD j d = data.getD (i + j) d) ∧
    CMambaDataset.len 6 3 = 2 ∧
    CMambaDataset.iloc_window ([0, 60, 120, 180, 240, 300] : List Nat) 3 0 =
      [0, 60, 120, 180] ∧
    CMambaDataset.iloc_window ([0, 60, 120, 180, 240, 300] : List Nat) 3 1 =
      [60, 120, 180, 240] := by
  refine ⟨?_, by decide, by decide, by decide⟩
  intro α d data w i j hi hj
  have hn : i + w + 1 < data.length := by
    simp only [CMambaDataset.len] at hi
    omega
  constructor
  · simp only [CMambaDataset.iloc_window, List.length_take, List.length_drop]
    omega
  · simp only [CMambaDataset.iloc_window, List.getD_eq_getElem?_getD,
      List.getElem?_take_of_lt hj, List.getElem?_drop]

/-- Witness for C1 at the 6-bar series, window_size 3, index 1, offset 2. -/
theorem C1_window_sampler_witness :
    1 < CMambaDataset.len ([0, 60, 120, 180, 240, 300] : List Nat).length 3 ∧ 2 < 3 + 1 ∧
    ((CMambaDataset.iloc_window ([0, 60, 120, 180, 240, 300] : List Nat) 3 1).length = 3 + 1 ∧
     (CMambaDataset.iloc_window ([0, 60, 120, 180, 240, 300] : List Nat) 3 1).getD 2 0 =
       ([0, 60, 120, 180, 240, 300] : List Nat).getD (1 + 2) 0) :=
  ⟨by decide, by decide,
   C1_window_sampler.1 Nat 0 [0, 60, 120, 180, 240, 300] 3 1 2 (by decide) (by decide)⟩

/-- Helper: mapping each produced bar back to its bucket start shows
that the bucket loop keeps exactly the starts whose merge succeeded. -/
theorem filterMap_merge_timestamps (data : List PriceRow) (jump : Int) (l : List Int) :
    ((l.filterMap fun i =>
        match DataConverter.merge_data data i jump with
        | none => none
        | some (h, lo, o, c, v) => some (DataConverter.OutBar.mk i h lo o c v)).map
      DataConverter.OutBar.timestamp)
    = l.filter fun i => (DataConverter.merge_data data i jump).isSome := by
  induction l with
  | nil => rfl
  | cons a l ih =>
    rw [List.filterMap_cons, List.filter_cons]
    cases hm : DataConverter.merge_data data a jump with
    | none => simp [hm, ih]
    | some t =>
      obtain ⟨h, lo, o, c, v⟩ := t
      simp [hm, ih]

/-- Helper: merge_data succeeds exactly on non-empty buckets. -/
theorem merge_isSome_iff (data : List PriceRow) (s jump : Int) :
    (DataConverter.merge_data data s jump).isSome =
      !(DataConverter.bucketFilter data s jump).isEmpty := by
  unfold DataConverter.merge_data
  cases h : DataConverter.bucketFilter data s jump <;> simp [h]

/-- Claim C4 (amended): the aggregator iterates bucket starts over
range(start, stop - 3600, jumps) — fixed-width steps that stop one
hour short of the configured end bound — and emits exactly one bar,
carrying the bucket start as its Timestamp, for each such bucket that
is non-empty; empty buckets are silently skipped. -/
theorem C4_aggregator_buckets (data : List PriceRow) (start stop jump : Int) :
    (DataConverter.process_data data start stop jump).map DataConverter.OutBar.timestamp =
      (DataConverter.pyRange start (stop - 3600) jump).filter
        (fun s => !(DataConverter.bucketFilter data s jump).isEmpty) := by
  unfold DataConverter.process_data
  rw [filterMap_merge_timestamps]
  exact List.filter_congr fun s _ => merge_isSome_iff data s jump

/-- Claim C4 counterexample: with start 0, stop 3660 and 60-second
buckets, the bucket starting at 60 lies inside the configured span
and contains a record, yet the aggregator produces no bar at all,
because its loop ranges only up to stop - 3600. -/
theorem C4_counterexample_bucket_range :
    DataConverter.process_data [⟨100, 1, 1, 1, 1, 1⟩] 0 3660 60 = [] ∧
    (0 : Int) ≤ 60 ∧ (60 : Int) < 3660 ∧
    DataConverter.bucketFilter [⟨100, 1, 1, 1, 1, 1⟩] 60 60 ≠ [] := by
  decide

/-- Helper: the row loop of merge_data, run from an arbitrary
accumulator, computes the componentwise max/min/last/sum. -/
theorem merge_fold (l : List PriceRow) (h0 l0 o0 c0 v0 : ℚ) :
    l.foldl DataConverter.merge_step (h0, l0, o0, c0, v0) =
      ((l.map PriceRow.high).foldl max h0,
       (l.map PriceRow.low).foldl min l0,
       o0,
       (l.map PriceRow.close).getLastD c0,
       v0 + (l.map PriceRow.volume).sum) := by
  induction l generalizing h0 l0 o0 c0 v0 with
  | nil => simp
  | cons r l ih =>
    simp only [List.foldl_cons, DataConverter.merge_step, List.map_cons, List.sum_cons,
      List.getLastD_cons, ih]
    rw [add_assoc]

/-- Claim C5: an aggregated bar over a non-empty bucket has open from
the first record, close from the last, the max of highs, the min of
lows, and the sum of volumes. -/
theorem C5_bucket_aggregation (data : List PriceRow) (start jump : Int)
    (r0 : PriceRow) (rest : List PriceRow)
    (h : DataConverter.bucketFilter data start jump = r0 :: rest) :
    DataConverter.merge_data data start jump =
      some ((rest.map PriceRow.high).foldl max r0.high,
            (rest.map PriceRow.low).foldl min r0.low,
            r0.«open»,
            (rest.map PriceRow.close).getLastD r0.close,
            ((r0 :: rest).map PriceRow.volume).sum) := by
  unfold DataConverter.merge_data
  rw [h]
  simp only [List.foldl_cons, DataConverter.merge_step, max_self, min_self, zero_add,
    merge_fold, List.map_cons, List.sum_cons, List.getLastD_cons]

/-- Witness for C5: the spec's example, two records with
(high 10, low 8) and (high 12, low 7) merged into one 60-second
bucket, yields high 12 and low 7 (and open 9, close 10, volume 3). -/
theorem C5_bucket_aggregation_witness :
    DataConverter.bucketFilter [⟨0, 10, 8, 9, 9, 1⟩, ⟨30, 12, 7, 9, 10, 2⟩] 0 60 =
      ⟨0, 10, 8, 9, 9, 1⟩ :: [⟨30, 12, 7, 9, 10, 2⟩] ∧
    DataConverter.merge_data [⟨0, 10, 8, 9, 9, 1⟩, ⟨30, 12, 7, 9, 10, 2⟩] 0 60 =
      some (12, 7, 9, 10, 3) := by
  refine ⟨by decide, ?_⟩
  rw [C5_bucket_aggregation [⟨0, 10, 8, 9, 9, 1⟩, ⟨30, 12, 7, 9, 10, 2⟩] 0 60
    ⟨0, 10, 8, 9, 9, 1⟩ [⟨30, 12, 7, 9, 10, 2⟩] (by decide)]
  norm_num [List.getLastD]

/-- Helper: when the test slice is non-empty and the counts fit, the
three raw (unsorted) slices of the shuffled index list concatenate
back to the whole list. -/
theorem split_pieces_eq (perm : List Nat) (a b : Nat) (hb : b ≠ 0)
    (hab : a ≤ perm.length - b) :
    perm.take a ++ DataConverter.slice_to_neg perm a b ++
      DataConverter.slice_from_neg perm b = perm := by
  unfold DataConverter.slice_to_neg DataConverter.slice_from_neg
  rw [if_neg hb, if_neg hb]
  have h1 : perm.take a = (perm.take (perm.length - b)).take a := by
    rw [List.take_take, Nat.min_eq_left hab]
  rw [h1, List.take_append_drop, List.take_append_drop]

/-- Claim C6 (amended): whenever the computed test count is at least 1
and the train and test counts together fit in the table, the ratio
split of a shuffled index list yields three subsets that are pairwise
disjoint, each sorted ascending, with sizes summing to the table
length.  (With a zero test count the slice total[-0:] is the whole
list, which breaks the claim as stated.) -/
theorem C6_ratio_split_amended (n : Nat) (train_frac test_frac : ℚ)
    (perm tr va te : List Nat)
    (hperm : perm.Perm (List.range n))
    (hb : 1 ≤ DataConverter.fraction_count test_frac n)
    (hab : DataConverter.fraction_count train_frac n +
      DataConverter.fraction_count test_frac n ≤ n)
    (hs : DataConverter.split_indices perm (DataConverter.fraction_count train_frac n)
      (DataConverter.fraction_count test_frac n) = (tr, va, te)) :
    tr.length + va.length + te.length = n ∧
    tr.Sorted (· ≤ ·) ∧ va.Sorted (· ≤ ·) ∧ te.Sorted (· ≤ ·) ∧
    tr.Disjoint va ∧ tr.Disjoint te ∧ va.Disjoint te := by
  unfold DataConverter.split_indices at hs
  obtain ⟨rfl, rfl, rfl⟩ := Prod.mk.injEq .. ▸ hs
  have hlen : perm.length = n := hperm.length_eq.trans (List.length_range n)
  have hnd : perm.Nodup := hperm.nodup_iff.mpr (List.nodup_range n)
  have hb0 : DataConverter.fraction_count test_frac n ≠ 0 := by omega
  have hab' : DataConverter.fraction_count train_frac n ≤
      perm.length - DataConverter.fraction_count test_frac n := by omega
  have hsplit := split_pieces_eq perm (DataConverter.fraction_count train_frac n)
    (DataConverter.fraction_count test_frac n) hb0 hab'
  have hnd2 : (perm.take (DataConverter.fraction_count train_frac n) ++
      (DataConverter.slice_to_neg perm (DataConverter.fraction_count train_frac n)
        (DataConverter.fraction_count test_frac n) ++
       DataConverter.slice_from_neg perm (DataConverter.fraction_count test_frac n))).Nodup := by
    rw [← List.append_assoc, hsplit]
    exact hnd
  obtain ⟨-, hnd23, hd123⟩ := List.nodup_append.mp hnd2
  obtain ⟨hd12, hd13⟩ := List.disjoint_append_right.mp hd123
  obtain ⟨-, -, hd23⟩ := List.nodup_append.mp hnd23
  have hmem : ∀ (l : List Nat) (x : Nat), x ∈ DataConverter.py_sorted l ↔ x ∈ l :=
    fun l x => (List.perm_insertionSort (· ≤ ·) l).mem_iff
  have hlength : ∀ l : List Nat, (DataConverter.py_sorted l).length = l.length :=
    fun l => (List.perm_insertionSort (· ≤ ·) l).length_eq
  refine ⟨?_, ?_, ?_, ?_, ?_, ?_, ?_⟩
  · have := congrArg List.length hsplit
    simp only [List.length_append] at this
    simp only [hlength]
    omega
  · exact List.sorted_insertionSort (· ≤ ·) _
  · exact List.sorted_insertionSort (· ≤ ·) _
  · exact List.sorted_insertionSort (· ≤ ·) _
  · intro x hx1 hx2
    exact hd12 ((hmem _ _).mp hx1) ((hmem _ _).mp hx2)
  · intro x hx1 hx2
    exact hd13 ((hmem _ _).mp hx1) ((hmem _ _).mp hx2)
  · intro x hx1 hx2
    exact hd23 ((hmem _ _).mp hx1) ((hmem _ _).mp hx2)

/-- Witness for the amended C6 at a 3-row table with both fractions
1/3 and shuffle outcome [1, 0, 2]. -/
theorem C6_ratio_split_witness :
    ([1, 0, 2] : List Nat).Perm (List.range 3) ∧
    1 ≤ DataConverter.fraction_count (1 / 3) 3 ∧
    DataConverter.fraction_count (1 / 3) 3 + DataConverter.fraction_count (1 / 3) 3 ≤ 3 ∧
    DataConverter.split_indices [1, 0, 2] (DataConverter.fraction_count (1 / 3) 3)
      (DataConverter.fraction_count (1 / 3) 3) = ([1], [0], [2]) ∧
    (([1] : List Nat).length + ([0] : List Nat).length + ([2] : List Nat).length = 3 ∧
     ([1] : List Nat).Sorted (· ≤ ·) ∧ ([0] : List Nat).Sorted (· ≤ ·) ∧
     ([2] : List Nat).Sorted (· ≤ ·) ∧
     ([1] : List Nat).Disjoint [0] ∧ ([1] : List Nat).Disjoint [2] ∧
     ([0] : List Nat).Disjoint [2]) := by
  have hf : DataConverter.fraction_count (1 / 3) 3 = 1 := by
    norm_num [DataConverter.fraction_count, DataConverter.pyInt]
  refine ⟨by decide, by rw [hf], by rw [hf]; decide, by rw [hf]; decide,
    C6_ratio_split_amended 3 (1 / 3) (1 / 3) [1, 0, 2] [1] [0] [2]
      (by decide) (by rw [hf]) (by rw [hf]; decide) (by rw [hf]; decide)⟩

/-- Claim C6 counterexample: a 2-row table with train_ratio 1/2 and
test_ratio 1/10 gives n_train = 1 and n_test = 0, so the slice
total[-0:] is the whole index list: with shuffle outcome [0, 1] the
test subset is [0, 1], the sizes sum to 3, not 2, and train and test
both contain row 0. -/
theorem C6_counterexample_ratio_split :
    DataConverter.fraction_count (1 / 2) 2 = 1 ∧
    DataConverter.fraction_count (1 / 10) 2 = 0 ∧
    ([0, 1] : List Nat).Perm (List.range 2) ∧
    DataConverter.split_indices [0, 1] (DataConverter.fraction_count (1 / 2) 2)
      (DataConverter.fraction_count (1 / 10) 2) = ([0], [], [0, 1]) ∧
    ¬(([0] : List Nat).length + ([] : List Nat).length + ([0, 1] : List Nat).length = 2) ∧
    ¬(([0] : List Nat).Disjoint [0, 1]) := by
  have h2 : DataConverter.fraction_count (1 / 2) 2 = 1 := by
    norm_num [DataConverter.fraction_count, DataConverter.pyInt]
  have h10 : DataConverter.fraction_count (1 / 10) 2 = 0 := by
    norm_num [DataConverter.fraction_count, DataConverter.pyInt]
  refine ⟨h2, h10, by decide, by rw [h2, h10]; decide, by decide, ?_⟩
  intro h
  exact @h 0 (by decide) (by decide)

/-- Claim C10: the classification branch of the dataset's item accessor
always overwrites target_class with the dataset's own labeling rule
applied at the dataset's threshold to the sample's returns value,
whatever target_class the inner transform had placed there. -/
theorem C10_dataset_label_override (threshold precomputed r : ℚ) (tc : Option Nat) :
    CMambaDataset.getitem_classify threshold precomputed ⟨some r, tc⟩ =
      ⟨some r, some (CMambaDataset.create_class_labels threshold r)⟩ ∧
    CMambaDataset.getitem_classify threshold precomputed ⟨none, tc⟩ =
      ⟨some precomputed, some (CMambaDataset.create_class_labels threshold precomputed)⟩ :=
  ⟨rfl, rfl⟩

end CryptoMamba
